import Mathlib

/-! Shallow embedding of the credential-lifecycle and request-execution layer
of the eka_mcp_server repository: the files eka_mcp_server/eka_interface.py,
eka_mcp_server/eka_mcp.py and eka_assist/eka_mcp.py.  Network traffic, the
wall clock and JWT decoding are modelled by an explicit environment; every
outbound HTTP request is recorded in a world state so that request counts and
request order are observable.  Pure computation takes no time; the clock
advances only while a network call is in flight. -/

/-- Python str.lower as used on HTTP method names (ASCII). -/
def pyLower (s : String) : String := ⟨s.data.map Char.toLower⟩

/-- Body shape returned by the login and refresh endpoints: resp.json() with
keys access_token, refresh_token and expires_in. -/
structure CredsJson where
  access_token : String
  refresh_token : String
  expires_in : Int
deriving Repr, DecidableEq

/-- An HTTP response as the code observes it: status_code, text (raw body),
and the decoded JSON body for the places where the code reads it as a
credentials dict. -/
structure HttpResult where
  status : Nat
  text : String
  creds : CredsJson
deriving Repr, DecidableEq

/-- An outbound HTTP request as recorded on the transport. -/
structure Request where
  method : String
  url : String
deriving Repr, DecidableEq

/-- Environment: the k-th network call of a run returns http k and takes
latency k time units while in flight; jwtExp t models
jwt.decode(t, verify_signature false) followed by .get("exp", 0) on the
payload (a default of 0 is folded into the function). -/
structure Env where
  http : Nat → HttpResult
  latency : Nat → Int
  jwtExp : String → Int

/-- World state threaded through the embedding: the current value of
int(time.time()), the number of network calls made so far, and the list of
issued requests in order. -/
structure W where
  time : Int
  nHttp : Nat
  reqs : List Request
deriving Repr, DecidableEq

/-- Initial world. -/
def W.start : W := { time := 0, nHttp := 0, reqs := [] }

/-- Issue one HTTP request: the response is determined by the environment,
time advances by the latency of the call, and the request is recorded. -/
def httpCall (env : Env) (method url : String) (w : W) : HttpResult × W :=
  (env.http w.nHttp,
   { time := w.time + env.latency w.nHttp
     nHttp := w.nHttp + 1
     reqs := w.reqs ++ [{ method := method, url := url }] })

/-- Exceptions the modelled code can raise.  createTokenError and
refreshTokenError carry their message string plus, when raised from an
httpx.HTTPStatusError, the status and body of the offending response (the
chained exception keeps e.response reachable from the raised error).
systemExit models sys.exit; attributeError models reading an attribute that
has not been assigned yet. -/
inductive PyError where
  | createTokenError (msg : String) (cause : Option (Nat × String))
  | refreshTokenError (msg : String) (cause : Option (Nat × String))
  | httpStatusError (status : Nat) (body : String)
  | valueError (msg : String)
  | systemExit (code : Int)
  | attributeError (name : String)
deriving Repr, DecidableEq

/-- httpx Response.raise_for_status succeeds exactly on 2xx responses. -/
def is2xx (s : Nat) : Bool := 200 ≤ s && s < 300

/-- Message of an httpx.HTTPStatusError, as interpolated by str(e): it names
the status code and the url, not the response body. -/
def httpxErrMsg (status : Nat) (url : String) : String :=
  "status " ++ toString status ++ " for url " ++ url

/-- Classifier for the claims about error propagation: which raised errors
count as a classified login failure (the AuthenticationFailed kind of the
spec, realised as CreateTokenError in eka_interface.py). -/
def isClassifiedAuthFailure : PyError → Bool
  | PyError.createTokenError _ _ => true
  | _ => false

/-- Classifier: which raised errors count as a classified refresh failure
(the RefreshFailed kind of the spec, realised as RefreshTokenError in
eka_interface.py). -/
def isClassifiedRefreshFailure : PyError → Bool
  | PyError.refreshTokenError _ _ => true
  | _ => false

/-- Immutable construction-time configuration: self.api_url, self.client_id,
self.client_secret. -/
structure Cfg where
  api_url : String
  client_id : String
  client_secret : String
deriving Repr, DecidableEq

namespace EkaInterface

/-- Shape of self.auth_creds in eka_interface.py: the credentials dict from
the refresh endpoint (access_token, refresh_token, expires_in) decorated with
the decoded jwt-payload, of which only the exp claim is ever read. -/
structure AuthCreds where
  access_token : String
  refresh_token : String
  expires_in : Int
  jwt_exp : Int
deriving Repr, DecidableEq

/-- EkaMCP._get_client_token of eka_interface.py: POST to the login endpoint;
on raise_for_status failure the HTTPStatusError is wrapped in a
CreateTokenError and raised. -/
def _get_client_token (env : Env) (cfg : Cfg) (w : W) :
    Except PyError CredsJson × W :=
  let url := cfg.api_url ++ "/connect-auth/v1/account/login"
  let r := httpCall env "post" url w
  if is2xx r.1.status then
    (Except.ok r.1.creds, r.2)
  else
    (Except.error (PyError.createTokenError
        ("Failed to create token: " ++ httpxErrMsg r.1.status url)
        (some (r.1.status, r.1.text))), r.2)

/-- EkaMCP._get_refresh_token of eka_interface.py: POST the current
access_token and refresh_token to the refresh endpoint and return resp.json();
on raise_for_status failure the HTTPStatusError is wrapped in a
RefreshTokenError and raised.  The Python function receives a dict and reads
exactly the keys access_token and refresh_token, passed here as the two
string arguments. -/
def _get_refresh_token (env : Env) (cfg : Cfg)
    (access_token refresh_token : String) (w : W) :
    Except PyError CredsJson × W :=
  let url := cfg.api_url ++ "/connect-auth/v1/account/refresh"
  let r := httpCall env "post" url w
  if is2xx r.1.status then
    (Except.ok r.1.creds, r.2)
  else
    (Except.error (PyError.refreshTokenError
        ("Failed to refresh token: " ++ httpxErrMsg r.1.status url)
        (some (r.1.status, r.1.text))), r.2)

/-- EkaMCP._get_auth_creds of eka_interface.py: login, then exchange the login
credentials at the refresh endpoint, then decode the jwt payload of the fresh
access token and attach it. -/
def _get_auth_creds (env : Env) (cfg : Cfg) (w : W) :
    Except PyError AuthCreds × W :=
  match _get_client_token env cfg w with
  | (Except.error e, w1) => (Except.error e, w1)
  | (Except.ok c1, w1) =>
    match _get_refresh_token env cfg c1.access_token c1.refresh_token w1 with
    | (Except.error e, w2) => (Except.error e, w2)
    | (Except.ok c2, w2) =>
      (Except.ok
        { access_token := c2.access_token
          refresh_token := c2.refresh_token
          expires_in := c2.expires_in
          jwt_exp := env.jwtExp c2.access_token }, w2)

/-- EkaMCP._validate_and_gen_token of eka_interface.py: read the clock, read
exp from the stored jwt payload, and when current_time is at or past
exp - 120 replace self.auth_creds with a full _get_auth_creds run.  The ok
value is the (possibly replaced) self.auth_creds; an error models the raised
exception, in which case self.auth_creds is left as it was. -/
def _validate_and_gen_token (env : Env) (cfg : Cfg) (auth : AuthCreds)
    (w : W) : Except PyError AuthCreds × W :=
  let current_time := w.time
  let exp_at := auth.jwt_exp
  if current_time ≥ exp_at - 120 then
    _get_auth_creds env cfg w
  else
    (Except.ok auth, w)

/-- EkaMCP._make_request of eka_interface.py: first _validate_and_gen_token
(outside the try block, so its exceptions propagate as raised), then issue
the primary request with the bearer token attached, raise_for_status, and
return the decoded JSON body.  The ok payload is the primary response (its
text field is the body whose decoded JSON the Python function returns); the
pair also carries the value of self.auth_creds after the call.  Query
parameters and JSON bodies of the primary request are not observed by any
claim and are not recorded. -/
def _make_request (env : Env) (cfg : Cfg) (auth : AuthCreds)
    (method endpoint : String) (w : W) :
    (Except PyError HttpResult × AuthCreds) × W :=
  match _validate_and_gen_token env cfg auth w with
  | (Except.error e, w1) => ((Except.error e, auth), w1)
  | (Except.ok auth1, w1) =>
    let url := cfg.api_url ++ "/eka-mcp/" ++ endpoint
    if pyLower method == "get" then
      let r := httpCall env "get" url w1
      if is2xx r.1.status then ((Except.ok r.1, auth1), r.2)
      else ((Except.error (PyError.httpStatusError r.1.status r.1.text), auth1), r.2)
    else if pyLower method == "post" then
      let r := httpCall env "post" url w1
      if is2xx r.1.status then ((Except.ok r.1, auth1), r.2)
      else ((Except.error (PyError.httpStatusError r.1.status r.1.text), auth1), r.2)
    else
      ((Except.error (PyError.valueError ("Unsupported HTTP method: " ++ method)), auth1), w1)

end EkaInterface

namespace EkaMcpServer

/-- Shape of self.auth_creds in eka_mcp_server/eka_mcp.py: the credentials
dict from the refresh endpoint with the computed absolute expires_at added. -/
structure AuthCreds where
  access_token : String
  refresh_token : String
  expires_in : Int
  expires_at : Int
deriving Repr, DecidableEq

/-- EkaMCP._get_refresh_token of eka_mcp_server/eka_mcp.py: read the clock
(before the POST is issued), POST to the refresh endpoint, sys.exit(1) unless
status_code is exactly 200, otherwise set
creds["expires_at"] = current_time + creds["expires_in"] and return the new
dict.  The Python function receives a dict and reads exactly the keys
access_token and refresh_token, passed here as the two string arguments. -/
def _get_refresh_token (env : Env) (cfg : Cfg)
    (access_token refresh_token : String) (w : W) :
    Except PyError AuthCreds × W :=
  let url := cfg.api_url ++ "/connect-auth/v1/account/refresh"
  let current_time := w.time
  let r := httpCall env "post" url w
  if r.1.status ≠ 200 then
    (Except.error (PyError.systemExit 1), r.2)
  else
    (Except.ok
      { access_token := r.1.creds.access_token
        refresh_token := r.1.creds.refresh_token
        expires_in := r.1.creds.expires_in
        expires_at := current_time + r.1.creds.expires_in }, r.2)

/-- EkaMCP._get_client_token of eka_mcp_server/eka_mcp.py: POST to the login
endpoint, sys.exit(1) unless status_code is exactly 200, then immediately
exchange the returned pair at the refresh endpoint. -/
def _get_client_token (env : Env) (cfg : Cfg) (w : W) :
    Except PyError AuthCreds × W :=
  let url := cfg.api_url ++ "/connect-auth/v1/account/login"
  let r := httpCall env "post" url w
  if r.1.status ≠ 200 then
    (Except.error (PyError.systemExit 1), r.2)
  else
    _get_refresh_token env cfg r.1.creds.access_token r.1.creds.refresh_token r.2

/-- EkaMCP._refresh_auth_token of eka_mcp_server/eka_mcp.py, exactly as
written: read the clock and, when current_time - expires_at <= 60, replace
self.auth_creds with a _get_refresh_token run.  The ok value is the
(possibly replaced) self.auth_creds. -/
def _refresh_auth_token (env : Env) (cfg : Cfg) (auth : AuthCreds) (w : W) :
    Except PyError AuthCreds × W :=
  let current_time := w.time
  if current_time - auth.expires_at ≤ 60 then
    _get_refresh_token env cfg auth.access_token auth.refresh_token w
  else
    (Except.ok auth, w)

/-- EkaMCP._make_request of eka_mcp_server/eka_mcp.py: first
_refresh_auth_token (outside the try block), then the primary request, the
same way as the eka_interface variant. -/
def _make_request (env : Env) (cfg : Cfg) (auth : AuthCreds)
    (method endpoint : String) (w : W) :
    (Except PyError HttpResult × AuthCreds) × W :=
  match _refresh_auth_token env cfg auth w with
  | (Except.error e, w1) => ((Except.error e, auth), w1)
  | (Except.ok auth1, w1) =>
    let url := cfg.api_url ++ "/eka-mcp/" ++ endpoint
    if pyLower method == "get" then
      let r := httpCall env "get" url w1
      if is2xx r.1.status then ((Except.ok r.1, auth1), r.2)
      else ((Except.error (PyError.httpStatusError r.1.status r.1.text), auth1), r.2)
    else if pyLower method == "post" then
      let r := httpCall env "post" url w1
      if is2xx r.1.status then ((Except.ok r.1, auth1), r.2)
      else ((Except.error (PyError.httpStatusError r.1.status r.1.text), auth1), r.2)
    else
      ((Except.error (PyError.valueError ("Unsupported HTTP method: " ++ method)), auth1), w1)

end EkaMcpServer

namespace EkaAssist

/-- The object under construction in eka_assist/eka_mcp.py.  Attributes are
assigned one by one in __init__, so each field is an Option: none means the
attribute has not been assigned yet and reading it raises AttributeError.
The client field stands for the httpx.Client connection pool. -/
structure Obj where
  api_url : Option String
  client_id : Option String
  client_token : Option String
  client : Option Unit
  auth_creds : Option EkaMcpServer.AuthCreds
deriving Repr, DecidableEq

/-- Python attribute read on the object under construction: AttributeError
when the attribute has not been assigned. -/
def readAttr {α : Type} (name : String) (v : Option α) : Except PyError α :=
  match v with
  | some x => Except.ok x
  | none => Except.error (PyError.attributeError name)

/-- EkaMCP._get_refresh_token of eka_assist/eka_mcp.py: identical to the
eka_mcp_server variant except that it reads self.api_url and self.client from
the object, which may not be fully constructed yet.  self.client is
dereferenced when the POST is issued. -/
def _get_refresh_token (env : Env) (o : Obj)
    (access_token refresh_token : String) (w : W) :
    Except PyError EkaMcpServer.AuthCreds × W :=
  match readAttr "api_url" o.api_url with
  | Except.error e => (Except.error e, w)
  | Except.ok api_url =>
    let url := api_url ++ "/connect-auth/v1/account/refresh"
    let current_time := w.time
    match readAttr "client" o.client with
    | Except.error e => (Except.error e, w)
    | Except.ok _ =>
      let r := httpCall env "post" url w
      if r.1.status ≠ 200 then
        (Except.error (PyError.systemExit 1), r.2)
      else
        (Except.ok
          { access_token := r.1.creds.access_token
            refresh_token := r.1.creds.refresh_token
            expires_in := r.1.creds.expires_in
            expires_at := current_time + r.1.creds.expires_in }, r.2)

/-- EkaMCP._get_client_token of eka_assist/eka_mcp.py: builds the login url
from self.api_url and the request body from self.client_id and
self.client_token, then issues the POST through self.client (which raises
AttributeError when self.client has not been assigned yet), then exchanges
the result at the refresh endpoint.  In the Python source the two body values
are wrapped in set literals; the body is not observed before self.client is
dereferenced, so the request body is not modelled. -/
def _get_client_token (env : Env) (o : Obj) (w : W) :
    Except PyError EkaMcpServer.AuthCreds × W :=
  match readAttr "api_url" o.api_url with
  | Except.error e => (Except.error e, w)
  | Except.ok api_url =>
    let url := api_url ++ "/connect-auth/v1/account/login"
    match readAttr "client_id" o.client_id with
    | Except.error e => (Except.error e, w)
    | Except.ok _ =>
      match readAttr "client_token" o.client_token with
      | Except.error e => (Except.error e, w)
      | Except.ok _ =>
        match readAttr "client" o.client with
        | Except.error e => (Except.error e, w)
        | Except.ok _ =>
          let r := httpCall env "post" url w
          if r.1.status ≠ 200 then
            (Except.error (PyError.systemExit 1), r.2)
          else
            _get_refresh_token env o r.1.creds.access_token r.1.creds.refresh_token r.2

/-- EkaMCP.__init__ of eka_assist/eka_mcp.py, in source order: assign
self.api_url (hardcoded), self.client_id and self.client_token, then call
self._get_client_token() to obtain self.auth_creds, and only afterwards
build the pool limits and assign self.client.  An error models the exception
propagating out of the constructor, in which case no instance exists. -/
def init (env : Env) (client_id client_token : String) (w : W) :
    Except PyError Obj × W :=
  let o : Obj :=
    { api_url := some "https://api.dev.eka.care"
      client_id := some client_id
      client_token := some client_token
      client := none
      auth_creds := none }
  match _get_client_token env o w with
  | (Except.error e, w1) => (Except.error e, w1)
  | (Except.ok creds, w1) =>
    (Except.ok { o with auth_creds := some creds, client := some () }, w1)

end EkaAssist

/-! Helper lemmas: explicit equations for the leaf network operations, used to
settle the claims below. -/

/-- Equation for the eka_interface login call. -/
lemma EkaInterface.client_token_eq (env : Env) (cfg : Cfg) (w : W) :
    EkaInterface._get_client_token env cfg w
      = (if is2xx (env.http w.nHttp).status
           then Except.ok (env.http w.nHttp).creds
           else Except.error (PyError.createTokenError
                  ("Failed to create token: "
                    ++ httpxErrMsg (env.http w.nHttp).status
                        (cfg.api_url ++ "/connect-auth/v1/account/login"))
                  (some ((env.http w.nHttp).status, (env.http w.nHttp).text))),
         { time := w.time + env.latency w.nHttp
           nHttp := w.nHttp + 1
           reqs := w.reqs ++ [{ method := "post"
                                url := cfg.api_url ++ "/connect-auth/v1/account/login" }] }) := by
  unfold EkaInterface._get_client_token httpCall
  by_cases h : is2xx (env.http w.nHttp).status <;> simp [h]

/-- Equation for the eka_interface refresh call. -/
lemma EkaInterface.refresh_token_eq (env : Env) (cfg : Cfg)
    (access_token refresh_token : String) (w : W) :
    EkaInterface._get_refresh_token env cfg access_token refresh_token w
      = (if is2xx (env.http w.nHttp).status
           then Except.ok (env.http w.nHttp).creds
           else Except.error (PyError.refreshTokenError
                  ("Failed to refresh token: "
                    ++ httpxErrMsg (env.http w.nHttp).status
                        (cfg.api_url ++ "/connect-auth/v1/account/refresh"))
                  (some ((env.http w.nHttp).status, (env.http w.nHttp).text))),
         { time := w.time + env.latency w.nHttp
           nHttp := w.nHttp + 1
           reqs := w.reqs ++ [{ method := "post"
                                url := cfg.api_url ++ "/connect-auth/v1/account/refresh" }] }) := by
  unfold EkaInterface._get_refresh_token httpCall
  by_cases h : is2xx (env.http w.nHttp).status <;> simp [h]

/-- Equation for the eka_mcp_server refresh call: the clock value folded into
expires_at is read before the request is issued. -/
lemma EkaMcpServer.mcp_refresh_token_eq (env : Env) (cfg : Cfg)
    (access_token refresh_token : String) (w : W) :
    EkaMcpServer._get_refresh_token env cfg access_token refresh_token w
      = (if (env.http w.nHttp).status = 200
           then Except.ok
             { access_token := (env.http w.nHttp).creds.access_token
               refresh_token := (env.http w.nHttp).creds.refresh_token
               expires_in := (env.http w.nHttp).creds.expires_in
               expires_at := w.time + (env.http w.nHttp).creds.expires_in }
           else Except.error (PyError.systemExit 1),
         { time := w.time + env.latency w.nHttp
           nHttp := w.nHttp + 1
           reqs := w.reqs ++ [{ method := "post"
                                url := cfg.api_url ++ "/connect-auth/v1/account/refresh" }] }) := by
  unfold EkaMcpServer._get_refresh_token httpCall
  by_cases h : (env.http w.nHttp).status = 200 <;> simp [h]

/-! Claims. -/

/-- Claim C10: every construction of the eka_assist variant EkaMCP fails.
The constructor evaluates self._get_client_token() before self.client is
assigned; the login POST dereferences self.client, so every call to the
constructor raises AttributeError for the client attribute before any network
request is made and before any credential is stored: the world, including the
list of issued requests, is returned unchanged, and no instance is ever
created. -/
theorem c10_assist_init_always_attribute_error
    (env : Env) (client_id client_token : String) (w : W) :
    EkaAssist.init env client_id client_token w
      = (Except.error (PyError.attributeError "client"), w) := by
  rfl

/-- Claim C1 (code bug witness evaluation): with the cached credential a full
hour from expiry (expires_at - time = 3600, far above the 60 second margin,
so the claim and the docstring of _refresh_auth_token demand zero network
requests and an unchanged cache), the eka_mcp_server variant still issues one
refresh request and replaces the cached credential, because its guard reads
current_time - expires_at <= 60 where the docstring describes
expires_at - current_time <= 60. -/
theorem c1_mcp_refreshes_token_an_hour_from_expiry :
    (60 : Int) < 3600 - W.start.time ∧
    EkaMcpServer._refresh_auth_token
        { http := fun _ =>
            { status := 200, text := ""
              creds := { access_token := "a2", refresh_token := "r2", expires_in := 1800 } }
          latency := fun _ => 0
          jwtExp := fun _ => 0 }
        { api_url := "https://api.eka.care", client_id := "cid", client_secret := "sec" }
        { access_token := "a1", refresh_token := "r1", expires_in := 1800, expires_at := 3600 }
        W.start
      = (Except.ok
          { access_token := "a2", refresh_token := "r2", expires_in := 1800, expires_at := 1800 },
         { time := 0, nHttp := 1
           reqs := [{ method := "post"
                      url := "https://api.eka.care/connect-auth/v1/account/refresh" }] }) := by
  exact ⟨by decide, by rfl⟩

lemma EkaInterface.auth_creds_reqs_le (env : Env) (cfg : Cfg) (w : W) :
    (EkaInterface._get_auth_creds env cfg w).2.reqs.length ≤ w.reqs.length + 2 := by
  unfold EkaInterface._get_auth_creds
  rw [EkaInterface.client_token_eq]
  by_cases h : is2xx (env.http w.nHttp).status
  · simp only [h, if_true]
    rw [EkaInterface.refresh_token_eq]
    by_cases h2 : is2xx (env.http (w.nHttp + 1)).status
    · simp [h2]
    · simp [h2]
  · simp [h]

lemma EkaInterface.validate_reqs_le (env : Env) (cfg : Cfg)
    (auth : EkaInterface.AuthCreds) (w : W) :
    (EkaInterface._validate_and_gen_token env cfg auth w).2.reqs.length ≤ w.reqs.length + 2 := by
  unfold EkaInterface._validate_and_gen_token
  by_cases h : w.time ≥ auth.jwt_exp - 120
  · simp only [h, if_true]
    exact EkaInterface.auth_creds_reqs_le env cfg w
  · simp [h]

lemma EkaMcpServer.refresh_auth_reqs_le (env : Env) (cfg : Cfg)
    (auth : EkaMcpServer.AuthCreds) (w : W) :
    (EkaMcpServer._refresh_auth_token env cfg auth w).2.reqs.length ≤ w.reqs.length + 1 := by
  unfold EkaMcpServer._refresh_auth_token
  by_cases h : w.time - auth.expires_at ≤ 60
  · simp only [h, if_true]
    rw [EkaMcpServer.mcp_refresh_token_eq]
    simp
  · simp [h]

lemma EkaInterface.make_request_reqs_le (env : Env) (cfg : Cfg)
    (auth : EkaInterface.AuthCreds) (method endpoint : String) (w : W) :
    (EkaInterface._make_request env cfg auth method endpoint w).2.reqs.length
      ≤ w.reqs.length + 3 := by
  unfold EkaInterface._make_request
  rcases hv : EkaInterface._validate_and_gen_token env cfg auth w with ⟨res, w1⟩
  have hb : w1.reqs.length ≤ w.reqs.length + 2 := by
    have h := EkaInterface.validate_reqs_le env cfg auth w
    rw [hv] at h
    exact h
  cases res with
  | error e => simpa using by omega
  | ok auth1 =>
    simp only [httpCall]
    split_ifs <;> simp <;> omega

lemma EkaMcpServer.mcp_make_request_reqs_le (env : Env) (cfg : Cfg)
    (auth : EkaMcpServer.AuthCreds) (method endpoint : String) (w : W) :
    (EkaMcpServer._make_request env cfg auth method endpoint w).2.reqs.length
      ≤ w.reqs.length + 2 := by
  unfold EkaMcpServer._make_request
  rcases hv : EkaMcpServer._refresh_auth_token env cfg auth w with ⟨res, w1⟩
  have hb : w1.reqs.length ≤ w.reqs.length + 1 := by
    have h := EkaMcpServer.refresh_auth_reqs_le env cfg auth w
    rw [hv] at h
    exact h
  cases res with
  | error e => simpa using by omega
  | ok auth1 =>
    simp only [httpCall]
    split_ifs <;> simp <;> omega

/-- Claim C5 counterexample: a credential-validation call of the
eka_interface variant that needs renewal (here the stored exp claim is 100
and the clock reads 0, inside the 120 second margin) performs two network
round trips, a login and a refresh, where the claim allows at most one. -/
theorem c5_counterexample_validation_two_requests :
    (EkaInterface._validate_and_gen_token
        { http := fun _ =>
            { status := 200, text := ""
              creds := { access_token := "a2", refresh_token := "r2", expires_in := 100 } }
          latency := fun _ => 0
          jwtExp := fun _ => 7 }
        { api_url := "https://api.eka.care", client_id := "cid", client_secret := "sec" }
        { access_token := "a1", refresh_token := "r1", expires_in := 100, jwt_exp := 100 }
        W.start).2.reqs
      = [{ method := "post", url := "https://api.eka.care/connect-auth/v1/account/login" },
         { method := "post", url := "https://api.eka.care/connect-auth/v1/account/refresh" }] ∧
    ¬ ((2 : Nat) ≤ 1) := by
  exact ⟨by rfl, by decide⟩

/-- Claim C5 as amended: the eka_mcp_server variant performs at most one
network round trip per credential-validation call and at most one round trip
beyond the primary call per _make_request; the eka_interface variant performs
at most two round trips per credential-validation call (a login followed by a
refresh) and hence at most two round trips beyond the primary call per
_make_request. -/
theorem c5_amended_round_trip_bounds (env : Env) (cfg : Cfg)
    (authI : EkaInterface.AuthCreds) (authM : EkaMcpServer.AuthCreds)
    (method endpoint : String) (w : W) :
    (EkaMcpServer._refresh_auth_token env cfg authM w).2.reqs.length ≤ w.reqs.length + 1 ∧
    (EkaMcpServer._make_request env cfg authM method endpoint w).2.reqs.length ≤ w.reqs.length + 2 ∧
    (EkaInterface._validate_and_gen_token env cfg authI w).2.reqs.length ≤ w.reqs.length + 2 ∧
    (EkaInterface._make_request env cfg authI method endpoint w).2.reqs.length ≤ w.reqs.length + 3 :=
  ⟨EkaMcpServer.refresh_auth_reqs_le env cfg authM w,
   EkaMcpServer.mcp_make_request_reqs_le env cfg authM method endpoint w,
   EkaInterface.validate_reqs_le env cfg authI w,
   EkaInterface.make_request_reqs_le env cfg authI method endpoint w⟩

/-- Claim C2 counterexample: a _make_request of the eka_interface variant
with the unsupported method PATCH, issued while the cached credential is
inside the refresh margin, raises the unsupported-operation ValueError only
after the credential-validation step has already issued two network requests
(login and refresh): the transport counter is 2, not 0 as the claim
requires. -/
theorem c2_counterexample_patch_still_generates_traffic :
    ((EkaInterface._make_request
        { http := fun _ =>
            { status := 200, text := ""
              creds := { access_token := "a2", refresh_token := "r2", expires_in := 100 } }
          latency := fun _ => 0
          jwtExp := fun _ => 7 }
        { api_url := "https://api.eka.care", client_id := "cid", client_secret := "sec" }
        { access_token := "a1", refresh_token := "r1", expires_in := 100, jwt_exp := 100 }
        "PATCH" "widgets" W.start).1.1
      = Except.error (PyError.valueError ("Unsupported HTTP method: " ++ "PATCH"))) ∧
    ((EkaInterface._make_request
        { http := fun _ =>
            { status := 200, text := ""
              creds := { access_token := "a2", refresh_token := "r2", expires_in := 100 } }
          latency := fun _ => 0
          jwtExp := fun _ => 7 }
        { api_url := "https://api.eka.care", client_id := "cid", client_secret := "sec" }
        { access_token := "a1", refresh_token := "r1", expires_in := 100, jwt_exp := 100 }
        "PATCH" "widgets" W.start).2.reqs.length = 2) ∧
    ¬ ((2 : Nat) = 0) := by
  exact ⟨by rfl, by rfl, by decide⟩

/-- Claim C2 as amended: an unsupported HTTP method makes _make_request fail
with the ValueError and the primary request is never issued, but the
credential-validation step runs before the method check and may itself issue
network requests; the transport counter stays at zero exactly when that step
takes its no-renewal branch.  Part one: the eka_interface variant outside the
margin performs no network request at all.  Part two: the eka_mcp_server
variant in its no-renewal branch performs no network request at all.  Part
three: whatever the validation step of the eka_interface variant did, nothing
is issued after it.  Part four: likewise for the eka_mcp_server variant,
covering in particular its due-for-renewal path, which by the inverted guard
of C1 is taken on every call with a still-valid token: the refresh traffic of
_refresh_auth_token happens, then the ValueError, and no primary request. -/
theorem c2_amended_unsupported_method_fails_without_primary_request
    (env : Env) (cfg : Cfg) (authI : EkaInterface.AuthCreds)
    (authM : EkaMcpServer.AuthCreds) (auth1 : EkaInterface.AuthCreds)
    (authM1 : EkaMcpServer.AuthCreds)
    (method endpoint : String) (w w1 wM1 : W)
    (hg : ¬ pyLower method = "get") (hp : ¬ pyLower method = "post") :
    (w.time < authI.jwt_exp - 120 →
      EkaInterface._make_request env cfg authI method endpoint w
        = ((Except.error (PyError.valueError ("Unsupported HTTP method: " ++ method)), authI), w)) ∧
    (60 < w.time - authM.expires_at →
      EkaMcpServer._make_request env cfg authM method endpoint w
        = ((Except.error (PyError.valueError ("Unsupported HTTP method: " ++ method)), authM), w)) ∧
    (EkaInterface._validate_and_gen_token env cfg authI w = (Except.ok auth1, w1) →
      EkaInterface._make_request env cfg authI method endpoint w
        = ((Except.error (PyError.valueError ("Unsupported HTTP method: " ++ method)), auth1), w1)) ∧
    (EkaMcpServer._refresh_auth_token env cfg authM w = (Except.ok authM1, wM1) →
      EkaMcpServer._make_request env cfg authM method endpoint w
        = ((Except.error (PyError.valueError ("Unsupported HTTP method: " ++ method)), authM1), wM1)) := by
  have main : ∀ (a1 : EkaInterface.AuthCreds) (v : W),
      EkaInterface._validate_and_gen_token env cfg authI w = (Except.ok a1, v) →
      EkaInterface._make_request env cfg authI method endpoint w
        = ((Except.error (PyError.valueError ("Unsupported HTTP method: " ++ method)), a1), v) := by
    intro a1 v hv
    unfold EkaInterface._make_request
    rw [hv]
    simp [hg, hp]
  have mainM : ∀ (a1 : EkaMcpServer.AuthCreds) (v : W),
      EkaMcpServer._refresh_auth_token env cfg authM w = (Except.ok a1, v) →
      EkaMcpServer._make_request env cfg authM method endpoint w
        = ((Except.error (PyError.valueError ("Unsupported HTTP method: " ++ method)), a1), v) := by
    intro a1 v hv
    unfold EkaMcpServer._make_request
    rw [hv]
    simp [hg, hp]
  refine ⟨?_, ?_, main auth1 w1, mainM authM1 wM1⟩
  · intro h
    have hv : EkaInterface._validate_and_gen_token env cfg authI w = (Except.ok authI, w) := by
      unfold EkaInterface._validate_and_gen_token
      have hlt : ¬ (w.time ≥ authI.jwt_exp - 120) := by omega
      simp [hlt]
    exact main authI w hv
  · intro h
    have hv : EkaMcpServer._refresh_auth_token env cfg authM w = (Except.ok authM, w) := by
      unfold EkaMcpServer._refresh_auth_token
      have hlt : ¬ (w.time - authM.expires_at ≤ 60) := by omega
      simp [hlt]
    exact mainM authM w hv

/-- Claim C2 witness: the amended statement applied at concrete inputs, the
method PATCH with a far-from-expiry credential in each variant, and
additionally PATCH on the eka_mcp_server variant holding a valid token, whose
inverted guard takes the renewal path: the refresh request is issued, the
ValueError follows, and the final request list contains only the refresh, no
primary request. -/
theorem c2_amended_unsupported_method_witness :
    (EkaInterface._make_request
        { http := fun _ =>
            { status := 200, text := ""
              creds := { access_token := "a2", refresh_token := "r2", expires_in := 100 } }
          latency := fun _ => 0
          jwtExp := fun _ => 7 }
        { api_url := "https://api.eka.care", client_id := "cid", client_secret := "sec" }
        { access_token := "a1", refresh_token := "r1", expires_in := 100, jwt_exp := 1000000 }
        "PATCH" "widgets" W.start
      = ((Except.error (PyError.valueError ("Unsupported HTTP method: " ++ "PATCH")),
          { access_token := "a1", refresh_token := "r1", expires_in := 100, jwt_exp := 1000000 }),
         W.start)) ∧
    (EkaMcpServer._make_request
        { http := fun _ =>
            { status := 200, text := ""
              creds := { access_token := "a2", refresh_token := "r2", expires_in := 100 } }
          latency := fun _ => 0
          jwtExp := fun _ => 7 }
        { api_url := "https://api.eka.care", client_id := "cid", client_secret := "sec" }
        { access_token := "a1", refresh_token := "r1", expires_in := 100, expires_at := -1000000 }
        "PATCH" "widgets" W.start
      = ((Except.error (PyError.valueError ("Unsupported HTTP method: " ++ "PATCH")),
          { access_token := "a1", refresh_token := "r1", expires_in := 100, expires_at := -1000000 }),
         W.start)) ∧
    (EkaMcpServer._make_request
        { http := fun _ =>
            { status := 200, text := ""
              creds := { access_token := "a2", refresh_token := "r2", expires_in := 100 } }
          latency := fun _ => 0
          jwtExp := fun _ => 7 }
        { api_url := "https://api.eka.care", client_id := "cid", client_secret := "sec" }
        { access_token := "a1", refresh_token := "r1", expires_in := 100, expires_at := 1000000 }
        "PATCH" "widgets" W.start
      = ((Except.error (PyError.valueError ("Unsupported HTTP method: " ++ "PATCH")),
          { access_token := "a2", refresh_token := "r2", expires_in := 100, expires_at := 100 }),
         { time := 0, nHttp := 1
           reqs := [{ method := "post"
                      url := "https://api.eka.care/connect-auth/v1/account/refresh" }] })) := by
  have h := c2_amended_unsupported_method_fails_without_primary_request
      { http := fun _ =>
          { status := 200, text := ""
            creds := { access_token := "a2", refresh_token := "r2", expires_in := 100 } }
        latency := fun _ => 0
        jwtExp := fun _ => 7 }
      { api_url := "https://api.eka.care", client_id := "cid", client_secret := "sec" }
      { access_token := "a1", refresh_token := "r1", expires_in := 100, jwt_exp := 1000000 }
      { access_token := "a1", refresh_token := "r1", expires_in := 100, expires_at := -1000000 }
      { access_token := "a1", refresh_token := "r1", expires_in := 100, jwt_exp := 1000000 }
      { access_token := "a1", refresh_token := "r1", expires_in := 100, expires_at := -1000000 }
      "PATCH" "widgets" W.start W.start W.start (by decide) (by decide)
  have h2 := c2_amended_unsupported_method_fails_without_primary_request
      { http := fun _ =>
          { status := 200, text := ""
            creds := { access_token := "a2", refresh_token := "r2", expires_in := 100 } }
        latency := fun _ => 0
        jwtExp := fun _ => 7 }
      { api_url := "https://api.eka.care", client_id := "cid", client_secret := "sec" }
      { access_token := "a1", refresh_token := "r1", expires_in := 100, jwt_exp := 1000000 }
      { access_token := "a1", refresh_token := "r1", expires_in := 100, expires_at := 1000000 }
      { access_token := "a1", refresh_token := "r1", expires_in := 100, jwt_exp := 1000000 }
      { access_token := "a2", refresh_token := "r2", expires_in := 100, expires_at := 100 }
      "PATCH" "widgets" W.start W.start
      { time := 0, nHttp := 1
        reqs := [{ method := "post"
                   url := "https://api.eka.care/connect-auth/v1/account/refresh" }] }
      (by decide) (by decide)
  exact ⟨h.1 (by decide), h.2.1 (by decide), h2.2.2.2 (by rfl)⟩

/-- Claim C3 counterexample: in the eka_mcp_server variant, a login that
receives HTTP 401 with body denied does not raise a classified
authentication error carrying the status and body; it terminates the process
through sys.exit(1), an outcome that carries neither the upstream status nor
the body and has no classified kind. -/
theorem c3_counterexample_login_failure_exits_process :
    ((EkaMcpServer._get_client_token
        { http := fun _ =>
            { status := 401, text := "denied"
              creds := { access_token := "", refresh_token := "", expires_in := 0 } }
          latency := fun _ => 0
          jwtExp := fun _ => 0 }
        { api_url := "https://api.eka.care", client_id := "cid", client_secret := "sec" }
        W.start).1
      = Except.error (PyError.systemExit 1)) ∧
    isClassifiedAuthFailure (PyError.systemExit 1) = false := by
  exact ⟨by rfl, by rfl⟩

/-- Claim C3 as amended: on a non-success login status the eka_interface
variant raises the classified CreateTokenError whose chained cause carries
the upstream status and body, and that error is propagated to the caller;
the eka_mcp_server variant instead terminates the process with sys.exit(1),
surfacing no classified error.  The amended claim holds for the
eka_interface variant and fails by design in the eka_mcp_server variant. -/
theorem c3_amended_login_failure_classification (env : Env) (cfg : Cfg) (w : W)
    (hs : is2xx (env.http w.nHttp).status = false) :
    ((EkaInterface._get_client_token env cfg w).1
      = Except.error (PyError.createTokenError
          ("Failed to create token: "
            ++ httpxErrMsg (env.http w.nHttp).status
                (cfg.api_url ++ "/connect-auth/v1/account/login"))
          (some ((env.http w.nHttp).status, (env.http w.nHttp).text)))) ∧
    (∀ msg cause,
      (EkaInterface._get_client_token env cfg w).1
          = Except.error (PyError.createTokenError msg cause) →
      isClassifiedAuthFailure (PyError.createTokenError msg cause) = true) ∧
    ((EkaMcpServer._get_client_token env cfg w).1
      = Except.error (PyError.systemExit 1)) := by
  have h200 : (env.http w.nHttp).status ≠ 200 := by
    intro hc
    rw [hc] at hs
    simp [is2xx] at hs
  refine ⟨?_, fun msg cause _ => rfl, ?_⟩
  · rw [EkaInterface.client_token_eq]
    simp [hs]
  · unfold EkaMcpServer._get_client_token httpCall
    simp [h200]

/-- Claim C3 witness: the amended statement applied at a concrete input, a
login answered with HTTP 401 and body denied. -/
theorem c3_amended_login_failure_classification_witness :
    ((EkaInterface._get_client_token
        { http := fun _ =>
            { status := 401, text := "denied"
              creds := { access_token := "", refresh_token := "", expires_in := 0 } }
          latency := fun _ => 0
          jwtExp := fun _ => 0 }
        { api_url := "https://api.eka.care", client_id := "cid", client_secret := "sec" }
        W.start).1
      = Except.error (PyError.createTokenError
          ("Failed to create token: "
            ++ httpxErrMsg 401 ("https://api.eka.care" ++ "/connect-auth/v1/account/login"))
          (some (401, "denied")))) ∧
    ((EkaMcpServer._get_client_token
        { http := fun _ =>
            { status := 401, text := "denied"
              creds := { access_token := "", refresh_token := "", expires_in := 0 } }
          latency := fun _ => 0
          jwtExp := fun _ => 0 }
        { api_url := "https://api.eka.care", client_id := "cid", client_secret := "sec" }
        W.start).1
      = Except.error (PyError.systemExit 1)) := by
  have h := c3_amended_login_failure_classification
      { http := fun _ =>
          { status := 401, text := "denied"
            creds := { access_token := "", refresh_token := "", expires_in := 0 } }
        latency := fun _ => 0
        jwtExp := fun _ => 0 }
      { api_url := "https://api.eka.care", client_id := "cid", client_secret := "sec" }
      W.start (by decide)
  exact ⟨h.1, h.2.2⟩

/-- Equation for the eka_interface _get_auth_creds run once the login call is
known to succeed: the outcome is decided by the refresh response, and the
credentials on success are built entirely from the refresh response and the
decoded jwt payload of the fresh access token. -/
lemma EkaInterface.auth_creds_eq_of_login_ok (env : Env) (cfg : Cfg) (w : W)
    (h1 : is2xx (env.http w.nHttp).status = true) :
    EkaInterface._get_auth_creds env cfg w
      = (if is2xx (env.http (w.nHttp + 1)).status
           then Except.ok
             { access_token := (env.http (w.nHttp + 1)).creds.access_token
               refresh_token := (env.http (w.nHttp + 1)).creds.refresh_token
               expires_in := (env.http (w.nHttp + 1)).creds.expires_in
               jwt_exp := env.jwtExp (env.http (w.nHttp + 1)).creds.access_token }
           else Except.error (PyError.refreshTokenError
                  ("Failed to refresh token: "
                    ++ httpxErrMsg (env.http (w.nHttp + 1)).status
                        (cfg.api_url ++ "/connect-auth/v1/account/refresh"))
                  (some ((env.http (w.nHttp + 1)).status, (env.http (w.nHttp + 1)).text))),
         { time := w.time + env.latency w.nHttp + env.latency (w.nHttp + 1)
           nHttp := w.nHttp + 2
           reqs := w.reqs
             ++ [{ method := "post", url := cfg.api_url ++ "/connect-auth/v1/account/login" },
                 { method := "post", url := cfg.api_url ++ "/connect-auth/v1/account/refresh" }] }) := by
  unfold EkaInterface._get_auth_creds
  rw [EkaInterface.client_token_eq]
  simp only [h1, if_true]
  rw [EkaInterface.refresh_token_eq]
  by_cases h2 : is2xx (env.http (w.nHttp + 1)).status <;> simp [h2]

/-- Claim C4 as amended: when a refresh is needed and the refresh endpoint
answers with a non-success status, the eka_interface variant surfaces the
classified RefreshTokenError (carrying the upstream status and body through
the chained cause) and the previously cached credential is returned
unmodified; on success the credential is replaced wholesale by a value built
entirely from the refresh response.  The eka_mcp_server variant instead
terminates the process with sys.exit(1) on a non-200 refresh status, so no
RefreshFailed error ever reaches its caller. -/
theorem c4_amended_refresh_failure_behavior (env : Env) (cfg : Cfg)
    (auth : EkaInterface.AuthCreds) (authM : EkaMcpServer.AuthCreds)
    (method endpoint : String) (w : W) :
    (w.time ≥ auth.jwt_exp - 120 →
     is2xx (env.http w.nHttp).status = true →
     is2xx (env.http (w.nHttp + 1)).status = false →
      (EkaInterface._make_request env cfg auth method endpoint w).1
        = (Except.error (PyError.refreshTokenError
            ("Failed to refresh token: "
              ++ httpxErrMsg (env.http (w.nHttp + 1)).status
                  (cfg.api_url ++ "/connect-auth/v1/account/refresh"))
            (some ((env.http (w.nHttp + 1)).status, (env.http (w.nHttp + 1)).text))), auth)) ∧
    (w.time ≥ auth.jwt_exp - 120 →
     is2xx (env.http w.nHttp).status = true →
     is2xx (env.http (w.nHttp + 1)).status = true →
      (EkaInterface._validate_and_gen_token env cfg auth w).1
        = Except.ok
            { access_token := (env.http (w.nHttp + 1)).creds.access_token
              refresh_token := (env.http (w.nHttp + 1)).creds.refresh_token
              expires_in := (env.http (w.nHttp + 1)).creds.expires_in
              jwt_exp := env.jwtExp (env.http (w.nHttp + 1)).creds.access_token }) ∧
    (w.time - authM.expires_at ≤ 60 →
     (env.http w.nHttp).status ≠ 200 →
      (EkaMcpServer._refresh_auth_token env cfg authM w).1
        = Except.error (PyError.systemExit 1)) := by
  refine ⟨?_, ?_, ?_⟩
  · intro hm h1 h2
    have hv : EkaInterface._validate_and_gen_token env cfg auth w
        = (Except.error (PyError.refreshTokenError
            ("Failed to refresh token: "
              ++ httpxErrMsg (env.http (w.nHttp + 1)).status
                  (cfg.api_url ++ "/connect-auth/v1/account/refresh"))
            (some ((env.http (w.nHttp + 1)).status, (env.http (w.nHttp + 1)).text))),
           { time := w.time + env.latency w.nHttp + env.latency (w.nHttp + 1)
             nHttp := w.nHttp + 2
             reqs := w.reqs
               ++ [{ method := "post", url := cfg.api_url ++ "/connect-auth/v1/account/login" },
                   { method := "post", url := cfg.api_url ++ "/connect-auth/v1/account/refresh" }] }) := by
      unfold EkaInterface._validate_and_gen_token
      rw [if_pos hm, EkaInterface.auth_creds_eq_of_login_ok env cfg w h1]
      simp [h2]
    unfold EkaInterface._make_request
    rw [hv]
  · intro hm h1 h2
    unfold EkaInterface._validate_and_gen_token
    rw [if_pos hm, EkaInterface.auth_creds_eq_of_login_ok env cfg w h1]
    simp [h2]
  · intro hm h200
    unfold EkaMcpServer._refresh_auth_token
    rw [if_pos hm, EkaMcpServer.mcp_refresh_token_eq]
    simp [h200]

/-- Claim C4 counterexample: in the eka_mcp_server variant, a
credential-validation call whose refresh request is answered with HTTP 400
does not surface a RefreshFailed-class error; it terminates the process with
sys.exit(1), which has no classified kind. -/
theorem c4_counterexample_refresh_failure_exits_process :
    ((EkaMcpServer._refresh_auth_token
        { http := fun _ =>
            { status := 400, text := "bad request"
              creds := { access_token := "", refresh_token := "", expires_in := 0 } }
          latency := fun _ => 0
          jwtExp := fun _ => 0 }
        { api_url := "https://api.eka.care", client_id := "cid", client_secret := "sec" }
        { access_token := "a1", refresh_token := "r1", expires_in := 100, expires_at := 50 }
        W.start).1
      = Except.error (PyError.systemExit 1)) ∧
    isClassifiedRefreshFailure (PyError.systemExit 1) = false := by
  exact ⟨by rfl, by rfl⟩

/-- Claim C4 witness: the amended statement applied at concrete inputs, one
run whose refresh is answered with HTTP 400 and one whose refresh succeeds. -/
theorem c4_amended_refresh_failure_behavior_witness :
    ((EkaInterface._make_request
        { http := fun k => if k = 0
            then { status := 200, text := "ok"
                   creds := { access_token := "b1", refresh_token := "s1", expires_in := 100 } }
            else { status := 400, text := "bad request"
                   creds := { access_token := "", refresh_token := "", expires_in := 0 } }
          latency := fun _ => 0
          jwtExp := fun _ => 7 }
        { api_url := "https://api.eka.care", client_id := "cid", client_secret := "sec" }
        { access_token := "a1", refresh_token := "r1", expires_in := 100, jwt_exp := 100 }
        "get" "widgets" W.start).1
      = (Except.error (PyError.refreshTokenError
          ("Failed to refresh token: "
            ++ httpxErrMsg 400 ("https://api.eka.care" ++ "/connect-auth/v1/account/refresh"))
          (some (400, "bad request"))),
         { access_token := "a1", refresh_token := "r1", expires_in := 100, jwt_exp := 100 })) ∧
    ((EkaInterface._validate_and_gen_token
        { http := fun _ =>
            { status := 200, text := "ok"
              creds := { access_token := "b2", refresh_token := "s2", expires_in := 100 } }
          latency := fun _ => 0
          jwtExp := fun _ => 424242 }
        { api_url := "https://api.eka.care", client_id := "cid", client_secret := "sec" }
        { access_token := "a1", refresh_token := "r1", expires_in := 100, jwt_exp := 100 }
        W.start).1
      = Except.ok { access_token := "b2", refresh_token := "s2", expires_in := 100
                    jwt_exp := 424242 }) ∧
    ((EkaMcpServer._refresh_auth_token
        { http := fun _ =>
            { status := 400, text := "bad request"
              creds := { access_token := "", refresh_token := "", expires_in := 0 } }
          latency := fun _ => 0
          jwtExp := fun _ => 0 }
        { api_url := "https://api.eka.care", client_id := "cid", client_secret := "sec" }
        { access_token := "a1", refresh_token := "r1", expires_in := 100, expires_at := 50 }
        W.start).1
      = Except.error (PyError.systemExit 1)) := by
  refine ⟨?_, ?_, ?_⟩
  · exact (c4_amended_refresh_failure_behavior
      { http := fun k => if k = 0
          then { status := 200, text := "ok"
                 creds := { access_token := "b1", refresh_token := "s1", expires_in := 100 } }
          else { status := 400, text := "bad request"
                 creds := { access_token := "", refresh_token := "", expires_in := 0 } }
        latency := fun _ => 0
        jwtExp := fun _ => 7 }
      { api_url := "https://api.eka.care", client_id := "cid", client_secret := "sec" }
      { access_token := "a1", refresh_token := "r1", expires_in := 100, jwt_exp := 100 }
      { access_token := "a1", refresh_token := "r1", expires_in := 100, expires_at := 50 }
      "get" "widgets" W.start).1 (by decide) (by decide) (by decide)
  · exact (c4_amended_refresh_failure_behavior
      { http := fun _ =>
          { status := 200, text := "ok"
            creds := { access_token := "b2", refresh_token := "s2", expires_in := 100 } }
        latency := fun _ => 0
        jwtExp := fun _ => 424242 }
      { api_url := "https://api.eka.care", client_id := "cid", client_secret := "sec" }
      { access_token := "a1", refresh_token := "r1", expires_in := 100, jwt_exp := 100 }
      { access_token := "a1", refresh_token := "r1", expires_in := 100, expires_at := 50 }
      "get" "widgets" W.start).2.1 (by decide) (by decide) (by decide)
  · exact (c4_amended_refresh_failure_behavior
      { http := fun _ =>
          { status := 400, text := "bad request"
            creds := { access_token := "", refresh_token := "", expires_in := 0 } }
        latency := fun _ => 0
        jwtExp := fun _ => 0 }
      { api_url := "https://api.eka.care", client_id := "cid", client_secret := "sec" }
      { access_token := "a1", refresh_token := "r1", expires_in := 100, jwt_exp := 100 }
      { access_token := "a1", refresh_token := "r1", expires_in := 100, expires_at := 50 }
      "get" "widgets" W.start).2.2 (by decide) (by decide)

/-- Claim C6 counterexample: a refresh in the eka_mcp_server variant issued
at clock 1000 against a transport with 5 time units of latency stores
expires_at = 1000 + expires_in = 1100, although the response is received at
clock 1005, so the claimed value would be 1105: the code captures the clock
before the request is sent, not when the response is received. -/
theorem c6_counterexample_expiry_uses_request_clock :
    (EkaMcpServer._get_refresh_token
        { http := fun _ =>
            { status := 200, text := ""
              creds := { access_token := "a2", refresh_token := "r2", expires_in := 100 } }
          latency := fun _ => 5
          jwtExp := fun _ => 0 }
        { api_url := "https://api.eka.care", client_id := "cid", client_secret := "sec" }
        "a1" "r1" { time := 1000, nHttp := 0, reqs := [] }
      = (Except.ok
          { access_token := "a2", refresh_token := "r2", expires_in := 100, expires_at := 1100 },
         { time := 1005, nHttp := 1
           reqs := [{ method := "post"
                      url := "https://api.eka.care/connect-auth/v1/account/refresh" }] })) ∧
    (1100 : Int) ≠ 1005 + 100 := by
  exact ⟨by rfl, by decide⟩

/-- Claim C6 as amended: when the refresh endpoint supplies an explicit
expires_in lifetime, the stored expires_at equals expires_in plus the clock
value read immediately before the refresh request is issued; the clock at the
moment the response is received is later by the latency of the call and is
not the value used. -/
theorem c6_amended_expires_at_uses_request_time (env : Env) (cfg : Cfg)
    (access_token refresh_token : String) (w : W)
    (hs : (env.http w.nHttp).status = 200) :
    ((EkaMcpServer._get_refresh_token env cfg access_token refresh_token w).1
      = Except.ok
          { access_token := (env.http w.nHttp).creds.access_token
            refresh_token := (env.http w.nHttp).creds.refresh_token
            expires_in := (env.http w.nHttp).creds.expires_in
            expires_at := w.time + (env.http w.nHttp).creds.expires_in }) ∧
    ((EkaMcpServer._get_refresh_token env cfg access_token refresh_token w).2.time
      = w.time + env.latency w.nHttp) := by
  rw [EkaMcpServer.mcp_refresh_token_eq]
  simp [hs]

/-- Claim C6 witness: the amended statement applied at a concrete input, a
refresh issued at clock 1000 over a transport with latency 5. -/
theorem c6_amended_expires_at_uses_request_time_witness :
    ((EkaMcpServer._get_refresh_token
        { http := fun _ =>
            { status := 200, text := ""
              creds := { access_token := "a2", refresh_token := "r2", expires_in := 100 } }
          latency := fun _ => 5
          jwtExp := fun _ => 0 }
        { api_url := "https://api.eka.care", client_id := "cid", client_secret := "sec" }
        "a1" "r1" { time := 1000, nHttp := 0, reqs := [] }).1
      = Except.ok
          { access_token := "a2", refresh_token := "r2", expires_in := 100
            expires_at := (1000 : Int) + 100 }) ∧
    ((EkaMcpServer._get_refresh_token
        { http := fun _ =>
            { status := 200, text := ""
              creds := { access_token := "a2", refresh_token := "r2", expires_in := 100 } }
          latency := fun _ => 5
          jwtExp := fun _ => 0 }
        { api_url := "https://api.eka.care", client_id := "cid", client_secret := "sec" }
        "a1" "r1" { time := 1000, nHttp := 0, reqs := [] }).2.time
      = (1000 : Int) + 5) := by
  exact c6_amended_expires_at_uses_request_time
      { http := fun _ =>
          { status := 200, text := ""
            creds := { access_token := "a2", refresh_token := "r2", expires_in := 100 } }
        latency := fun _ => 5
        jwtExp := fun _ => 0 }
      { api_url := "https://api.eka.care", client_id := "cid", client_secret := "sec" }
      "a1" "r1" { time := 1000, nHttp := 0, reqs := [] } (by decide)

/-- Claim C7: in the eka_interface variant, whenever the credential
validation step completes and the primary response is non-2xx, _make_request
raises the httpx HTTPStatusError carrying that status and body of that
response, and the final world shows the primary request as the last network
action: exactly one request after validation, so no retry of the primary
call and no further refresh attempt. -/
theorem c7_primary_failure_no_retry (env : Env) (cfg : Cfg)
    (auth auth1 : EkaInterface.AuthCreds) (method endpoint : String) (w w1 : W)
    (hv : EkaInterface._validate_and_gen_token env cfg auth w = (Except.ok auth1, w1))
    (hm : pyLower method = "get" ∨ pyLower method = "post")
    (hs : is2xx (env.http w1.nHttp).status = false) :
    EkaInterface._make_request env cfg auth method endpoint w
      = ((Except.error (PyError.httpStatusError (env.http w1.nHttp).status
            (env.http w1.nHttp).text), auth1),
         { time := w1.time + env.latency w1.nHttp
           nHttp := w1.nHttp + 1
           reqs := w1.reqs ++ [{ method := pyLower method
                                 url := cfg.api_url ++ "/eka-mcp/" ++ endpoint }] }) := by
  unfold EkaInterface._make_request
  rw [hv]
  rcases hm with h | h <;> simp [h, httpCall, hs]

/-- Claim C7 witness: a GET answered with HTTP 401 and body denied, issued
while the cached credential is far from expiry (so validation is a no-op and
the fresh-token situation of the claim is realised trivially): the call
fails with the 401 and its body and the request list shows the primary call
as the only network action. -/
theorem c7_primary_failure_no_retry_witness :
    EkaInterface._make_request
        { http := fun _ =>
            { status := 401, text := "denied"
              creds := { access_token := "", refresh_token := "", expires_in := 0 } }
          latency := fun _ => 0
          jwtExp := fun _ => 0 }
        { api_url := "https://api.eka.care", client_id := "cid", client_secret := "sec" }
        { access_token := "a1", refresh_token := "r1", expires_in := 100, jwt_exp := 1000000 }
        "GET" "widgets" W.start
      = ((Except.error (PyError.httpStatusError 401 "denied"),
          { access_token := "a1", refresh_token := "r1", expires_in := 100, jwt_exp := 1000000 }),
         { time := 0, nHttp := 1
           reqs := [{ method := pyLower "GET"
                      url := "https://api.eka.care" ++ "/eka-mcp/" ++ "widgets" }] }) := by
  exact c7_primary_failure_no_retry
      { http := fun _ =>
          { status := 401, text := "denied"
            creds := { access_token := "", refresh_token := "", expires_in := 0 } }
        latency := fun _ => 0
        jwtExp := fun _ => 0 }
      { api_url := "https://api.eka.care", client_id := "cid", client_secret := "sec" }
      { access_token := "a1", refresh_token := "r1", expires_in := 100, jwt_exp := 1000000 }
      { access_token := "a1", refresh_token := "r1", expires_in := 100, jwt_exp := 1000000 }
      "GET" "widgets" W.start W.start (by rfl) (Or.inl (by decide)) (by decide)

/-- Claim C8 counterexample: a refresh performed by the eka_mcp_server
credential-validation call can move the expiry backwards.  With the cached
expires_at at 1000 and the clock at 0 the code refreshes (its guard is
satisfied), and an upstream answer of expires_in = 500 yields a new
expires_at of 500, strictly earlier than the 1000 before the refresh. -/
theorem c8_counterexample_expiry_decreases :
    ((EkaMcpServer._refresh_auth_token
        { http := fun _ =>
            { status := 200, text := ""
              creds := { access_token := "a2", refresh_token := "r2", expires_in := 500 } }
          latency := fun _ => 0
          jwtExp := fun _ => 0 }
        { api_url := "https://api.eka.care", client_id := "cid", client_secret := "sec" }
        { access_token := "a1", refresh_token := "r1", expires_in := 1800, expires_at := 1000 }
        W.start).1
      = Except.ok
          { access_token := "a2", refresh_token := "r2", expires_in := 500, expires_at := 500 }) ∧
    ¬ ((1000 : Int) < 500) := by
  exact ⟨by rfl, by decide⟩

/-- Claim C8 as amended: after a refresh performed by the eka_mcp_server
credential-validation call, the new expires_at equals the pre-request clock
plus the upstream-granted expires_in; it is strictly later than the previous
expires_at exactly when the granted expires_in exceeds the time remaining on
the old credential at the moment of the refresh.  The code itself enforces
no monotonicity. -/
theorem c8_amended_expiry_after_refresh (env : Env) (cfg : Cfg)
    (auth : EkaMcpServer.AuthCreds) (w : W)
    (hm : w.time - auth.expires_at ≤ 60)
    (hs : (env.http w.nHttp).status = 200) :
    ((EkaMcpServer._refresh_auth_token env cfg auth w).1
      = Except.ok
          { access_token := (env.http w.nHttp).creds.access_token
            refresh_token := (env.http w.nHttp).creds.refresh_token
            expires_in := (env.http w.nHttp).creds.expires_in
            expires_at := w.time + (env.http w.nHttp).creds.expires_in }) ∧
    (auth.expires_at < w.time + (env.http w.nHttp).creds.expires_in
      ↔ auth.expires_at - w.time < (env.http w.nHttp).creds.expires_in) := by
  constructor
  · unfold EkaMcpServer._refresh_auth_token
    rw [if_pos hm, EkaMcpServer.mcp_refresh_token_eq]
    simp [hs]
  · omega

/-- Claim C8 witness: the amended statement applied at a concrete input where
the upstream grants more lifetime than remained, so the expiry does move
forward: old expires_at 1000, clock 900, expires_in 3600, new expires_at
4500. -/
theorem c8_amended_expiry_after_refresh_witness :
    ((EkaMcpServer._refresh_auth_token
        { http := fun _ =>
            { status := 200, text := ""
              creds := { access_token := "a2", refresh_token := "r2", expires_in := 3600 } }
          latency := fun _ => 0
          jwtExp := fun _ => 0 }
        { api_url := "https://api.eka.care", client_id := "cid", client_secret := "sec" }
        { access_token := "a1", refresh_token := "r1", expires_in := 1800, expires_at := 1000 }
        { time := 900, nHttp := 0, reqs := [] }).1
      = Except.ok
          { access_token := "a2", refresh_token := "r2", expires_in := 3600
            expires_at := (900 : Int) + 3600 }) ∧
    ((1000 : Int) < (900 : Int) + 3600 ↔ (1000 : Int) - 900 < (3600 : Int)) := by
  exact c8_amended_expiry_after_refresh
      { http := fun _ =>
          { status := 200, text := ""
            creds := { access_token := "a2", refresh_token := "r2", expires_in := 3600 } }
        latency := fun _ => 0
        jwtExp := fun _ => 0 }
      { api_url := "https://api.eka.care", client_id := "cid", client_secret := "sec" }
      { access_token := "a1", refresh_token := "r1", expires_in := 1800, expires_at := 1000 }
      { time := 900, nHttp := 0, reqs := [] } (by decide) (by decide)
